import Mathlib

/-!
Verification of the nested-model field renderer of dash-pydantic-form
(packages/dash-pydantic-form/dash_pydantic_form/fields/model_field.py).

The module text defines a ModelField class with a construction-time
layout validator, a post-init normalization hook, three render methods
(simple_item, modal_item, accordion_item), a string-keyed dispatch
(the private render method), and two clientside callbacks wiring the
edit and save buttons to the modal open state.

The module, however, never loads: the accordion_item docstring on line
200 is indented nine spaces against the eight-space method body that
follows, so the Python tokenizer raises an IndentationError while
compiling the file, before any statement executes. The development
therefore has two layers: the function-text embeddings below give the
semantics each definition would have, and the program-level definitions
(tokenizeIndents, model_field_module_import, and the in_program
wrappers) give the behavior the program actually exhibits — every use
of the module fails with the import-time IndentationError.
-/

mutual

/-- Python-level values that can flow through the form_layout field and
the model extras: None, strings, booleans, integers, lists, string-keyed
dicts, and already-normalized FormLayout objects. -/
inductive PyVal where
  | none
  | str (s : String)
  | bool (b : Bool)
  | int (n : Int)
  | list (xs : List PyVal)
  | dict (entries : List (String × PyVal))
  | layout (l : FormLayout)

/-- Modelled from the spec: FormLayout (form_layouts/form_layout.py is not
part of the provided source). The spec says the layout descriptor may be an
already-normalized object or a raw mapping and that a raw mapping is
normalized into the layout object, so the object is modelled as carrying
the mapping it was loaded from. -/
inductive FormLayout where
  | mk (data : List (String × PyVal))

end

/-- Modelled from the spec: FormLayout.load normalizes a raw mapping
(passed as keyword arguments) into the layout object (form_layouts is
outside the provided source). -/
def FormLayout.load (kwargs : List (String × PyVal)) : FormLayout :=
  FormLayout.mk kwargs

/-- Python `v is None` on an embedded value. -/
def PyVal.isNone : PyVal → Bool
  | .none => true
  | _ => false

/-- Python `d.get(key)` on a string-keyed dict: the stored value, or None
when the key is missing. -/
def dictGet (entries : List (String × PyVal)) (key : String) : PyVal :=
  match entries.find? (fun e => e.1 == key) with
  | some e => e.2
  | Option.none => PyVal.none

/-- ModelField.validate_form_layout, the mode="before" field validator run
at construction: a FormLayout instance or None passes through unchanged, a
dict is normalized via FormLayout.load, and any other value raises a
ValueError with the message below. This embeds the function text of lines
50-58; the enclosing module never loads, so the validator never actually
runs — program-visible construction is ModelField.construct_in_program. -/
def validate_form_layout (v : PyVal) : Except String PyVal :=
  match v with
  | .layout _ => .ok v
  | .none => .ok v
  | .dict d => .ok (.layout (FormLayout.load d))
  | _ => .error "form_layout must be a FormLayout or a dict that can be converted to a FormLayout"

/-- A field representation descriptor for a nested field; the renderer only
forwards the fields_repr mapping, so descriptors are opaque strings. -/
abbrev FieldsRepr := List (String × String)

/-- The mutable attribute state touched by ModelField.model_post_init:
the validated form_layout value, the fields_repr mapping (None or a dict),
and the model extras. -/
structure ModelFieldInit where
  form_layout : PyVal
  fields_repr : Option FieldsRepr
  model_extra : List (String × PyVal)

/-- ModelField.model_post_init: the BaseField hook runs first (BaseField is
outside the provided source and the spec records no effect of it beyond
this normalization), then a None fields_repr is replaced by an empty dict,
and when form_layout is None while the model extras are truthy and hold a
non-None "sections" value, that legacy value is adopted as form_layout.
This embeds the function text of lines 60-66 of a class the failing module
never defines; see ModelField.construct_in_program for program-visible
behavior. -/
def model_post_init (s : ModelFieldInit) : ModelFieldInit :=
  let s1 := if s.fields_repr.isNone then { s with fields_repr := some [] } else s
  if s1.form_layout.isNone && !s1.model_extra.isEmpty
      && !(dictGet s1.model_extra "sections").isNone then
    { s1 with form_layout := dictGet s1.model_extra "sections" }
  else
    s1

/-- Construction of a ModelField as far as the form_layout and fields_repr
attributes are concerned, per the function text: pydantic runs the
before-validator on the supplied layout value (a raised ValueError aborts
construction before any render can be attempted), then model_post_init
runs on the validated state. Real construction never gets this far — the
module fails to load — so the program-visible operation is
ModelField.construct_in_program, which gates this on the module import. -/
def ModelField.construct (form_layout_input : PyVal)
    (model_extra : List (String × PyVal)) (fields_repr : Option FieldsRepr) :
    Except String ModelFieldInit :=
  match validate_form_layout form_layout_input with
  | .error e => .error e
  | .ok fl => .ok (model_post_init ⟨fl, fields_repr, model_extra⟩)

/-- Modelled from the spec: the composite identifier scheme of
common_ids.field_dependent_id (ids.py is outside the provided source).
The spec describes identifiers as composite keys built from a component
marker, a widget-group id (aio_id), a form id, the field name, and an
optional parent path. -/
structure FieldDependentId where
  component : String
  aio_id : String
  form_id : String
  field : String
  parent : String
deriving DecidableEq, Repr

/-- Modelled from the spec: common_ids.field_dependent_id builds the
composite identifier from its arguments (ids.py is outside the provided
source). -/
def field_dependent_id (component aio_id form_id field parent : String) :
    FieldDependentId :=
  ⟨component, aio_id, form_id, field, parent⟩

/-- ModelField.ids.edit: field_dependent_id with its component marker fixed
to "_pydf-model-field-edit". -/
def ModelFieldIds.edit : String → String → String → String → FieldDependentId :=
  field_dependent_id "_pydf-model-field-edit"

/-- ModelField.ids.modal: field_dependent_id with its component marker
fixed to "_pydf-model-field-modal". -/
def ModelFieldIds.modal : String → String → String → String → FieldDependentId :=
  field_dependent_id "_pydf-model-field-modal"

/-- ModelField.ids.modal_save: field_dependent_id with its component marker
fixed to "_pydf-model-field-modal-save". -/
def ModelFieldIds.modal_save : String → String → String → String → FieldDependentId :=
  field_dependent_id "_pydf-model-field-modal-save"

/-- Modelled from the spec: the schema metadata the renderer resolves from
a FieldInfo — title, description and discriminator (get_title and
get_description are inherited from BaseField, get_str_discriminator comes
from dash_pydantic_utils; all three are outside the provided source, and
the spec lists exactly these three resolved values as the input
contract). -/
structure FieldInfo where
  title : Option String
  description : Option String
  discriminator : Option String

/-- Modelled from the spec: self.get_title(field_info, field_name=...)
resolves the optional title from the schema metadata. -/
def get_title (field_info : FieldInfo) (_field_name : String) : Option String :=
  field_info.title

/-- Modelled from the spec: self.get_description(field_info) resolves the
optional description from the schema metadata. -/
def get_description (field_info : FieldInfo) : Option String :=
  field_info.description

/-- Modelled from the spec: get_str_discriminator(field_info) resolves the
optional discriminator from the schema metadata. -/
def get_str_discriminator (field_info : FieldInfo) : Option String :=
  field_info.discriminator

/-- Modelled from the spec: get_fullpath joins the optional parent path and
the field name into the dotted path of the nested field
(dash_pydantic_utils is outside the provided source; the spec speaks of
dotted field paths). -/
def get_fullpath (parent field : String) : String :=
  if parent = "" then field else parent ++ "." ++ field

/-- Modelled from the spec: the i18n message lookup wrapping the Save
button label (i18n.py is outside the provided source; the spec does not
describe translation, so the lookup is the identity on the message). -/
def i18n_gettext (s : String) : String := s

/-- A nested BaseModel instance: the renderer only forwards it to the
sub-form, so it is modelled as its mapping from field names to values. -/
abbrev Item := List (String × String)

/-- The arguments each render method passes to the embedded ModelForm call
(ModelForm itself is outside the provided source; what the claims are about
is exactly which arguments each call site passes). The discriminator
argument is only supplied at the accordion call site and otherwise keeps
the default None. -/
structure ModelFormArgs where
  item : Item
  aio_id : String
  form_id : String
  path : String
  fields_repr : FieldsRepr
  form_layout : Option FormLayout
  read_only : Bool
  form_cols : Int
  excluded_fields : Option (List String)
  fields_order : Option (List String)
  discriminator : Option String := Option.none

/-- The UI description tree the render methods produce: one constructor per
component constructor appearing in the source, carrying the data-bearing
arguments; purely presentational keyword arguments are kept as key-value
string pairs. -/
inductive Comp where
  | text (children : Option String) (props : List (String × String))
  | modelForm (args : ModelFormArgs)
  | stack (children : List Comp) (props : List (String × String))
  | box (children : List Comp)
  | group (children : List Comp) (props : List (String × String))
  | actionIcon (child : Comp) (props : List (String × String)) (id : FieldDependentId)
  | modal (children : List Comp) (title : Option String) (id : FieldDependentId)
      (props : List (String × String))
  | button (children : String) (leftSection : Comp) (id : FieldDependentId)
  | paper (child : Comp) (props : List (String × String))
  | dashIconify (icon : String) (props : List (String × String))

/-- Python multiplication of a list literal by a boolean condition, as in
`(cond) * [x]`: the list when the condition holds, else the empty list.
The elements of the literal are evaluated in Python before the
multiplication, so element construction is unconditional here as well. -/
def listMul (b : Bool) (xs : List α) : List α := if b then xs else []

/-- The typed ModelField configuration reaching the render methods:
render_type (default "accordion"), fields_repr (default empty), the
validated form_layout, form_cols (default 4), excluded_fields,
fields_order, and the read_only flag inherited from BaseField (outside the
provided source; the spec lists it among the inherited configuration the
renderers pass through). -/
structure ModelField where
  render_type : String := "accordion"
  fields_repr : FieldsRepr := []
  form_layout : Option FormLayout := Option.none
  form_cols : Int := 4
  excluded_fields : Option (List String) := Option.none
  fields_order : Option (List String) := Option.none
  read_only : Bool := false

/-- ModelField.simple_item per the function text of lines 75-111: a Box
holding a Stack with the title line (included when the title is not None)
and the description line (included when both title and description are not
None), followed by the embedded ModelForm call forwarding the inherited
configuration. The failing module never defines this method, so no call
ever produces this tree; program-visible rendering is
ModelField.render_in_program. -/
def ModelField.simple_item (self : ModelField) (item : Item)
    (aio_id form_id field parent : String) (field_info : FieldInfo) : Comp :=
  let title := get_title field_info field
  let description := get_description field_info
  Comp.box [
    Comp.stack
      (listMul title.isSome
          [Comp.text title [("size", "sm"), ("mt", "3"), ("mb", "5"), ("fw", "500"), ("lh", "1.55")]]
        ++ listMul (title.isSome && description.isSome)
          [Comp.text description [("size", "xs"), ("c", "dimmed"), ("mt", "-5"), ("mb", "5"), ("lh", "1.2")]])
      [("gap", "0")],
    Comp.modelForm
      ⟨item, aio_id, form_id, get_fullpath parent field, self.fields_repr,
        self.form_layout, self.read_only, self.form_cols, self.excluded_fields,
        self.fields_order, Option.none⟩
  ]

/-- ModelField.modal_item per the function text of lines 113-188: a
bordered Paper with a Group holding the title text, the edit ActionIcon,
and the (initially closed) Modal containing the embedded ModelForm and the
Save button; the edit, modal and save controls carry the composite
identifiers built from (aio_id, form_id, field, parent). The failing
module never defines this method, so no call ever produces this tree;
program-visible rendering is ModelField.render_in_program. -/
def ModelField.modal_item (self : ModelField) (item : Item)
    (aio_id form_id field parent : String) (field_info : FieldInfo) : Comp :=
  let title := get_title field_info field
  let new_parent := get_fullpath parent field
  Comp.paper
    (Comp.group [
        Comp.text title
          [("flex", "1"), ("overflow", "hidden"), ("textOverflow", "ellipsis"),
            ("whiteSpace", "nowrap")],
        Comp.group
          [Comp.actionIcon (Comp.dashIconify "carbon:edit" [("height", "16")])
              [("variant", "light"), ("size", "sm")]
              (ModelFieldIds.edit aio_id form_id field parent)]
          [("gap", "0.25rem")],
        Comp.modal [
            Comp.modelForm
              ⟨item, aio_id, form_id, new_parent, self.fields_repr,
                self.form_layout, self.read_only, self.form_cols,
                self.excluded_fields, self.fields_order, Option.none⟩,
            Comp.group
              [Comp.button (i18n_gettext "Save")
                  (Comp.dashIconify "carbon:save" [])
                  (ModelFieldIds.modal_save aio_id form_id field parent)]
              [("justify", "right"), ("mt", "sm")]
          ]
          title
          (ModelFieldIds.modal aio_id form_id field parent)
          [("--modal-size", "min(calc(100vw - 4rem), 1150px)"),
            ("styles.content.containerType", "inline-size")]
      ]
      [("gap", "sm"), ("align", "top")])
    [("withBorder", "True"), ("radius", "sm"), ("p", "xs"),
      ("className", "pydf-model-list-modal-item")]

/-- A render-time failure: the ValueError raised by the dispatch on an
unknown render type, or a NameError on an undefined module-level name. -/
inductive RenderError where
  | valueError (message : String)
  | nameError (name : String)
deriving DecidableEq, Repr

/-- ModelField.accordion_item per the function text of lines 190-250 —
the very method whose line-200 docstring indentation (nine spaces against
the eight-space body) makes the whole module fail to tokenize, so this
method is never even defined. Were the text to parse, a call would resolve
title, description and discriminator from the schema metadata and then
evaluate fac.AntdAccordion to build its component — but the module never
imports fac (nor uuid, used inside the argument list for the fresh item
key), so the call would raise a NameError on the name fac before any
component, and before the fresh uuid key, is produced. The freshKey
argument stands for the value uuid.uuid4().hex would return. -/
def ModelField.accordion_item (_self : ModelField) (_item : Item)
    (_aio_id _form_id field _parent : String) (field_info : FieldInfo)
    (_freshKey : String) : Except RenderError Comp :=
  let _title := get_title field_info field
  let _description := get_description field_info
  let _discriminator := get_str_discriminator field_info
  Except.error (RenderError.nameError "fac")

/-- The private render dispatch of ModelField per the function text of
lines 253-275: getattr(self, render_type + "_item") selects among the
three render methods defined on the class; for any other render_type
string the AttributeError is converted into a ValueError whose message
names the offending style. freshKey threads the fresh-uuid supply to the
accordion renderer. The failing module never defines this dispatch;
program-visible rendering is ModelField.render_in_program. -/
def ModelField.render (self : ModelField) (item : Item)
    (aio_id form_id field parent : String) (field_info : FieldInfo)
    (freshKey : String) : Except RenderError Comp :=
  if self.render_type = "accordion" then
    self.accordion_item item aio_id form_id field parent field_info freshKey
  else if self.render_type = "modal" then
    Except.ok (self.modal_item item aio_id form_id field parent field_info)
  else if self.render_type = "simple" then
    Except.ok (self.simple_item item aio_id form_id field parent field_info)
  else
    Except.error (RenderError.valueError ("Unknown render type: " ++ self.render_type))

mutual

/-- All composite identifiers attached to interactive controls (edit
ActionIcon, Modal, Save Button) in a component tree, in document order. -/
def Comp.collectIds : Comp → List FieldDependentId
  | .text _ _ => []
  | .modelForm _ => []
  | .stack cs _ => collectIdsList cs
  | .box cs => collectIdsList cs
  | .group cs _ => collectIdsList cs
  | .actionIcon c _ i => i :: c.collectIds
  | .modal cs _ i _ => i :: collectIdsList cs
  | .button _ c i => i :: c.collectIds
  | .paper c _ => c.collectIds
  | .dashIconify _ _ => []

/-- Identifier collection over a list of children. -/
def collectIdsList : List Comp → List FieldDependentId
  | [] => []
  | c :: cs => c.collectIds ++ collectIdsList cs

end

mutual

/-- All embedded ModelForm calls in a component tree, in document order. -/
def Comp.collectForms : Comp → List ModelFormArgs
  | .text _ _ => []
  | .modelForm a => [a]
  | .stack cs _ => collectFormsList cs
  | .box cs => collectFormsList cs
  | .group cs _ => collectFormsList cs
  | .actionIcon c _ _ => c.collectForms
  | .modal cs _ _ _ => collectFormsList cs
  | .button _ c _ => c.collectForms
  | .paper c _ => c.collectForms
  | .dashIconify _ _ => []

/-- ModelForm collection over a list of children. -/
def collectFormsList : List Comp → List ModelFormArgs
  | [] => []
  | c :: cs => c.collectForms ++ collectFormsList cs

end

mutual

/-- The children of all Text components in a component tree, in document
order; a description element is a Text carrying the description string. -/
def Comp.collectTexts : Comp → List (Option String)
  | .text t _ => [t]
  | .modelForm _ => []
  | .stack cs _ => collectTextsList cs
  | .box cs => collectTextsList cs
  | .group cs _ => collectTextsList cs
  | .actionIcon c _ _ => c.collectTexts
  | .modal cs _ _ _ => collectTextsList cs
  | .button _ c _ => c.collectTexts
  | .paper c _ => c.collectTexts
  | .dashIconify _ _ => []

/-- Text collection over a list of children. -/
def collectTextsList : List Comp → List (Option String)
  | [] => []
  | c :: cs => c.collectTexts ++ collectTextsList cs

end

/-- A simulated click event on one of the two controls wired by the module
level clientside callbacks. -/
inductive ModalEvent where
  | editClick
  | saveClick
deriving DecidableEq, Repr

/-- Modelled from the spec: the initial open state the modal would have.
The dmc.Modal in the modal_item text is created without an opened argument
and the two callbacks set prevent_initial_call, so a rendered modal would
start closed; the failing module never renders one. -/
def modal_opened_initial : Bool := false

/-- The open-state step relation the two module-level clientside callback
registrations of lines 279-292 would define: a click on the edit control
runs syncTrue on the matching modal opened property, a click on the save
control runs syncFalse (the JavaScript bodies are outside the provided
source; the spec says they set the open state to true and false). The
registrations are module-body statements of a module whose import fails,
so they never execute — see registered_callbacks_in_program. -/
def modal_opened_step : Bool → ModalEvent → Bool
  | _, .editClick => true
  | _, .saveClick => false

/-- The message of the IndentationError the Python tokenizer raises when a
dedent matches no open indentation level. -/
def indentation_error_message : String :=
  "unindent does not match any outer indentation level"

/-- Python dedent handling: pop the indentation stack until its top equals
the new indent; None when the new indent matches no remaining level (the
unindent error). -/
def dedentTo (i : Nat) : List Nat → Option (List Nat)
  | [] => Option.none
  | top :: rest =>
    if top = i then some (top :: rest)
    else if top < i then Option.none
    else dedentTo i rest

/-- The indentation rule of the Python tokenizer over the sequence of
logical-line indents: an indent larger than the stack top is pushed, an
equal one leaves the stack unchanged, and a smaller one pops to a matching
level, raising an IndentationError when no level matches. Python compiles
a module — running this over the whole file — before executing any of its
statements. -/
def tokenizeIndents (stack : List Nat) : List Nat → Except String Unit
  | [] => Except.ok ()
  | i :: rest =>
    match stack with
    | [] => Except.error "tokenizer stack exhausted"
    | top :: s =>
      if top < i then tokenizeIndents (i :: top :: s) rest
      else if i = top then tokenizeIndents (top :: s) rest
      else
        match dedentTo i (top :: s) with
        | some stack2 => tokenizeIndents stack2 rest
        | Option.none => Except.error indentation_error_message

/-- The indents of the logical lines of model_field.py (physical lines
joined inside brackets form one logical line; blank and comment-only lines
generate no indentation tokens). The groups below name the physical lines
they cover; the lone entry 9 is the accordion_item docstring on physical
line 200, followed by the eight-space method body starting on line 201. -/
def model_field_module_indents : List Nat :=
  [0, 0, 0, 0, 0, 0, 0, 0, 0, 0, 0, 0, 0, -- module imports, lines 1-21
    0, -- the class ModelField statement, line 24
    4, 4, 4, 4, 4, 4, 4, 4, -- class docstring and attributes, lines 25-48
    4, 4, 4, 8, 8, 12, 8, 12, 8, -- validate_form_layout with decorators, lines 50-58
    4, 8, 8, 8, 12, 8, 12, -- model_post_init, lines 60-66
    4, 8, 8, 8, 8, -- the nested ids class, lines 68-73
    4, 8, 8, 8, 8, 8, -- simple_item, lines 75-90
    4, 8, 8, 8, 8, 8, -- modal_item, lines 113-128
    4, 9, 8, 8, 8, 8, 8, -- accordion_item, lines 190-206: docstring at 9
    4, 8, 8, 12, 8, 12, 8, -- the private render method, lines 253-268
    0, 0] -- the two clientside_callback calls, lines 279-292

/-- The import of model_field.py: Python tokenizes and compiles the file
(initial indentation stack [0]) before executing any statement; only on
success would the module body — the imports, the ModelField class
statement, and the two clientside_callback registrations — run. -/
def model_field_module_import : Except String Unit :=
  tokenizeIndents [0] model_field_module_indents

/-- An error surfaced to Python code using the module: the IndentationError
raised when the module is imported, or the ValueError and NameError its
functions would raise if the module loaded. -/
inductive PyError where
  | indentationError (message : String)
  | valueError (message : String)
  | nameError (name : String)
deriving DecidableEq, Repr

/-- Program-level construction of a ModelField: any use of the class first
needs the module imported, so a failed import reaches every caller as the
IndentationError; only after a successful import would the validator and
post-init of ModelField.construct run. -/
def ModelField.construct_in_program (form_layout_input : PyVal)
    (model_extra : List (String × PyVal)) (fields_repr : Option FieldsRepr) :
    Except PyError ModelFieldInit :=
  match model_field_module_import with
  | Except.error e => Except.error (PyError.indentationError e)
  | Except.ok _ =>
    match ModelField.construct form_layout_input model_extra fields_repr with
    | Except.error m => Except.error (PyError.valueError m)
    | Except.ok s => Except.ok s

/-- Program-level render call: the module import precedes any dispatch, so
a failed import reaches every caller as the IndentationError; only after a
successful import would the dispatch of ModelField.render run. -/
def ModelField.render_in_program (self : ModelField) (item : Item)
    (aio_id form_id field parent : String) (field_info : FieldInfo)
    (freshKey : String) : Except PyError Comp :=
  match model_field_module_import with
  | Except.error e => Except.error (PyError.indentationError e)
  | Except.ok _ =>
    match self.render item aio_id form_id field parent field_info freshKey with
    | Except.error (RenderError.valueError m) => Except.error (PyError.valueError m)
    | Except.error (RenderError.nameError n) => Except.error (PyError.nameError n)
    | Except.ok c => Except.ok c

/-- The composite identifiers a program-level render call exposes: those
collected from the produced tree, none when the call fails. -/
def ModelField.renderIds_in_program (self : ModelField) (item : Item)
    (aio_id form_id field parent : String) (field_info : FieldInfo)
    (freshKey : String) : List FieldDependentId :=
  match self.render_in_program item aio_id form_id field parent field_info freshKey with
  | Except.ok c => c.collectIds
  | Except.error _ => []

/-- The two event-to-state rules the module-level clientside_callback calls
at lines 279-292 would register: an edit-click sets the matching modal
opened property to true (syncTrue), a save-click sets it to false
(syncFalse) — the rules whose step relation is modal_opened_step. -/
inductive CallbackBinding where
  | setModalOpenedTrueOnEditClick
  | setModalOpenedFalseOnSaveClick
deriving DecidableEq, Repr

/-- The registrations the module body would perform on a successful import. -/
def module_callback_registrations : List CallbackBinding :=
  [CallbackBinding.setModalOpenedTrueOnEditClick,
    CallbackBinding.setModalOpenedFalseOnSaveClick]

/-- Program-level callback registration: the two clientside_callback calls
are module-body statements, so they run only when the import succeeds. -/
def registered_callbacks_in_program : Except PyError (List CallbackBinding) :=
  match model_field_module_import with
  | Except.error e => Except.error (PyError.indentationError e)
  | Except.ok _ => Except.ok module_callback_registrations

theorem model_field_module_import_fails :
    model_field_module_import = Except.error indentation_error_message := rfl
/-- C6: evaluating the code at the failing input — a render with the
default accordion style fails with a NameError on the unimported module
name fac, so the accordion render operation is not a total function into UI
descriptions: it never returns one, for any well-typed input. -/
theorem C6_accordion_failure :
    ModelField.render ({} : ModelField) [] "aio" "form" "nested" ""
        ⟨some "Nested", Option.none, Option.none⟩ "fresh"
      = Except.error (RenderError.nameError "fac")
    ∧ ∀ (self : ModelField) (c : Comp) (item : Item)
        (aio_id form_id field parent : String) (fi : FieldInfo) (k : String),
        self.accordion_item item aio_id form_id field parent fi k ≠ Except.ok c := by
  constructor
  · rfl
  · intro self c item aio_id form_id field parent fi k
    simp [ModelField.accordion_item]

/-- C1: evaluating the code at the inputs of the claim — the claimed dispatch
behavior never occurs. The module import fails with the IndentationError
(the accordion_item docstring of line 200 is indented one space deeper
than the method body), so a render call with any configured style,
including an unknown one such as "tabs", surfaces the import error: the
style-naming ValueError is never raised and no renderer result is ever
returned. -/
theorem C1_dispatch_never_runs (self : ModelField) (item : Item)
    (aio_id form_id field parent : String) (fi : FieldInfo) (k : String) :
    self.render_in_program item aio_id form_id field parent fi k
      = Except.error (PyError.indentationError indentation_error_message)
    ∧ (∀ m, self.render_in_program item aio_id form_id field parent fi k
        ≠ Except.error (PyError.valueError m))
    ∧ (∀ c, self.render_in_program item aio_id form_id field parent fi k
        ≠ Except.ok c) := by
  have h : self.render_in_program item aio_id form_id field parent fi k
      = Except.error (PyError.indentationError indentation_error_message) := rfl
  refine ⟨h, ?_, ?_⟩
  · intro m hx
    rw [h] at hx
    simp at hx
  · intro c hx
    rw [h] at hx
    simp at hx

/-- C2: evaluating the code at the inputs of the claim — construction never
runs the validator. For every supplied layout value, valid or not, the
construction attempt fails with the import-time IndentationError: no value
is ever accepted or normalized and the ValueError of the claim is never
raised. -/
theorem C2_validation_never_runs (v : PyVal) (extra : List (String × PyVal))
    (fr : Option FieldsRepr) :
    ModelField.construct_in_program v extra fr
      = Except.error (PyError.indentationError indentation_error_message)
    ∧ (∀ s, ModelField.construct_in_program v extra fr ≠ Except.ok s)
    ∧ (∀ m, ModelField.construct_in_program v extra fr
        ≠ Except.error (PyError.valueError m)) := by
  have h : ModelField.construct_in_program v extra fr
      = Except.error (PyError.indentationError indentation_error_message) := rfl
  refine ⟨h, ?_, ?_⟩
  · intro s hx
    rw [h] at hx
    simp at hx
  · intro m hx
    rw [h] at hx
    simp at hx

/-- C3: evaluating the code at the failing point — the two clientside
callback registrations are module-body statements and the module import
fails with the IndentationError, so the edit and save bindings (whose
step relation modal_opened_step would toggle the modal open state) are
never registered: no open-state machine ever comes into existence. -/
theorem C3_callbacks_never_registered :
    registered_callbacks_in_program
      = Except.error (PyError.indentationError indentation_error_message)
    ∧ ∀ bs, registered_callbacks_in_program ≠ Except.ok bs := by
  have h : registered_callbacks_in_program
      = Except.error (PyError.indentationError indentation_error_message) := rfl
  refine ⟨h, ?_⟩
  intro bs hx
  rw [h] at hx
  simp at hx

/-- C4: evaluating the code at the inputs of the claim — no construction ever
completes. For every extras mapping (with or without a legacy "sections"
value) a construction without an explicit layout fails with the
import-time IndentationError, so model_post_init never runs and no
effective layout ever equals the legacy value. -/
theorem C4_shim_never_runs (extra : List (String × PyVal))
    (fr : Option FieldsRepr) :
    ModelField.construct_in_program PyVal.none extra fr
      = Except.error (PyError.indentationError indentation_error_message)
    ∧ ∀ s, ModelField.construct_in_program PyVal.none extra fr ≠ Except.ok s := by
  have h : ModelField.construct_in_program PyVal.none extra fr
      = Except.error (PyError.indentationError indentation_error_message) := rfl
  refine ⟨h, ?_⟩
  intro s hx
  rw [h] at hx
  simp at hx

/-- C5 (as stated, refuted): at this concrete modal-style input the render
call produces no UI description tree at all — it fails with the import
IndentationError — so it is false that for every render style two calls
with the same inputs produce identical UI description trees. -/
theorem C5_no_tree_counterexample :
    ¬ ∃ c, ModelField.render_in_program { render_type := "modal" } [("x", "1")]
        "aio" "form" "child" "root" ⟨some "T", some "D", Option.none⟩ "key1"
      = Except.ok c := by
  rintro ⟨c, hx⟩
  have h : ModelField.render_in_program { render_type := "modal" } [("x", "1")]
      "aio" "form" "child" "root" ⟨some "T", some "D", Option.none⟩ "key1"
      = Except.error (PyError.indentationError indentation_error_message) := rfl
  rw [h] at hx
  simp at hx

/-- C5 (amended): every render call fails identically with the import-time
IndentationError, whatever the style, configuration, object, identifiers
or fresh-key supply — two calls with the same inputs (indeed any inputs)
return the same result, and no call of any style produces a UI description
tree. -/
theorem C5_renders_fail_identically (self self2 : ModelField) (item item2 : Item)
    (aio_id form_id field parent aio2 form2 field2 parent2 : String)
    (fi fi2 : FieldInfo) (k1 k2 : String) :
    self.render_in_program item aio_id form_id field parent fi k1
      = self2.render_in_program item2 aio2 form2 field2 parent2 fi2 k2
    ∧ ∀ c, self.render_in_program item aio_id form_id field parent fi k1
        ≠ Except.ok c := by
  have h1 : self.render_in_program item aio_id form_id field parent fi k1
      = Except.error (PyError.indentationError indentation_error_message) := rfl
  have h2 : self2.render_in_program item2 aio2 form2 field2 parent2 fi2 k2
      = Except.error (PyError.indentationError indentation_error_message) := rfl
  refine ⟨h1.trans h2.symm, ?_⟩
  intro c hx
  rw [h1] at hx
  simp at hx

/-- C7: evaluating the code at the inputs of the claim — no renderer call ever
builds identifiers. Every program-level render fails at import with the
IndentationError, so the list of exposed edit, modal and save identifiers
is empty for every style and every input: the claimed deterministic
composite identifiers are never produced. -/
theorem C7_no_identifiers_built (self : ModelField) (item : Item)
    (aio_id form_id field parent : String) (fi : FieldInfo) (k : String) :
    self.renderIds_in_program item aio_id form_id field parent fi k = []
    ∧ self.render_in_program item aio_id form_id field parent fi k
      = Except.error (PyError.indentationError indentation_error_message) := by
  exact ⟨rfl, rfl⟩

/-- C8: evaluating the code at the exact input of the claim — simple style, two
sub-form columns, excluded field "secret", rendering the nested object
with fields secret and visible: the call fails at import with the
IndentationError, so no embedded sub-form call is ever made and nothing
ever receives form_cols 2 or excluded_fields ["secret"]. -/
theorem C8_passthrough_never_occurs :
    ModelField.render_in_program
        { render_type := "simple", form_cols := 2, excluded_fields := some ["secret"] }
        [("secret", "x"), ("visible", "y")]
        "aio" "form" "nested" "" ⟨some "T", Option.none, Option.none⟩ "k"
      = Except.error (PyError.indentationError indentation_error_message)
    ∧ ∀ c, ModelField.render_in_program
        { render_type := "simple", form_cols := 2, excluded_fields := some ["secret"] }
        [("secret", "x"), ("visible", "y")]
        "aio" "form" "nested" "" ⟨some "T", Option.none, Option.none⟩ "k"
      ≠ Except.ok c := by
  refine ⟨rfl, ?_⟩
  intro c hx
  rw [show ModelField.render_in_program
      { render_type := "simple", form_cols := 2, excluded_fields := some ["secret"] }
      [("secret", "x"), ("visible", "y")]
      "aio" "form" "nested" "" ⟨some "T", Option.none, Option.none⟩ "k"
      = Except.error (PyError.indentationError indentation_error_message) from rfl] at hx
  simp at hx

/-- C9: evaluating the code at the inputs of the claim — the raw-mapping path
and the already-normalized-object path behave identically on the program,
but only because both fail at import with the IndentationError: the
validator never executes, so no normalization is ever performed and no
constructed state is ever produced by either path. -/
theorem C9_normalization_never_runs (d : List (String × PyVal))
    (extra : List (String × PyVal)) (fr : Option FieldsRepr) :
    ModelField.construct_in_program (PyVal.dict d) extra fr
      = ModelField.construct_in_program (PyVal.layout (FormLayout.load d)) extra fr
    ∧ ModelField.construct_in_program (PyVal.dict d) extra fr
      = Except.error (PyError.indentationError indentation_error_message)
    ∧ ∀ s, ModelField.construct_in_program (PyVal.dict d) extra fr
        ≠ Except.ok s := by
  have h : ModelField.construct_in_program (PyVal.dict d) extra fr
      = Except.error (PyError.indentationError indentation_error_message) := rfl
  have h2 : ModelField.construct_in_program (PyVal.layout (FormLayout.load d)) extra fr
      = Except.error (PyError.indentationError indentation_error_message) := rfl
  refine ⟨h.trans h2.symm, h, ?_⟩
  intro s hx
  rw [h] at hx
  simp at hx

/-- C10: for every input to the simple or accordion variant whose resolved
title is absent or empty, the rendered output contains no description
element even when a non-empty description is resolved. The property holds
because those render calls never produce any rendered output at all —
every program-level render fails at import with the IndentationError — so
no output exists that could carry the description text (the title and
description hypotheses are stated as in the claim; the conclusion holds
without them). -/
theorem C10_no_description_element (self : ModelField) (item : Item)
    (aio_id form_id field parent : String) (fi : FieldInfo) (k : String) (d : String)
    (_hstyle : self.render_type = "simple" ∨ self.render_type = "accordion")
    (_htitle : fi.title = Option.none ∨ fi.title = some "")
    (_hdesc : fi.description = some d) :
    (¬ ∃ c, self.render_in_program item aio_id form_id field parent fi k = Except.ok c
        ∧ (some d) ∈ c.collectTexts)
    ∧ ¬ ∃ c, self.render_in_program item aio_id form_id field parent fi k
        = Except.ok c := by
  have h : self.render_in_program item aio_id form_id field parent fi k
      = Except.error (PyError.indentationError indentation_error_message) := rfl
  constructor
  · rintro ⟨c, hx, _⟩
    rw [h] at hx
    simp at hx
  · rintro ⟨c, hx⟩
    rw [h] at hx
    simp at hx

/-- Witness for C10 at the simple style with an absent title and the
description "D". -/
theorem C10_no_description_element_witness :
    ¬ ∃ c, ModelField.render_in_program { render_type := "simple" } []
        "aio" "form" "fld" "" ⟨Option.none, some "D", Option.none⟩ "k"
      = Except.ok c ∧ (some "D") ∈ c.collectTexts :=
  (C10_no_description_element { render_type := "simple" } [] "aio" "form" "fld" ""
    ⟨Option.none, some "D", Option.none⟩ "k" "D" (Or.inl rfl) (Or.inl rfl) rfl).1
